import Mathlib

/-!
Verification of the bookshelf repository's service/store contract.

The development shallowly embeds the Go sources:

* `library.Book` — the sole domain entity (`src/.../library`, used throughout).
* `store.LibraryStore` — the persistence adapter executing four parameterized
  SQL statements against the `books` table
  (`src/04-persistence-end/library/store/store.go`).
* `service.LibraryService` — `AddBook` / `GetBook` / `GetBooks` over the
  abstract `Store` capability interface (code shown in
  `src/02-first-model-begin/README.md`, `src/03-testing-services-end/README.md`,
  and the validation added in the testing-services lesson).
* the `mockStore` test double with behavior injection and a call log
  (`library/service/service_test.go`, shown in the testing-services lesson).

The database itself (the `books` table plus the sqlx driver calls) is embedded
as an explicit state `DB`: a list of rows, the next `BIGSERIAL` value, and a
connection-health flag.  The SQL layer's semantics follow the migration
`20220406.0-add-book-table.sql` (NOT NULL / length > 0 checks on title and
author, auto-incrementing primary key) and standard driver behavior
(`sql.ErrNoRows` when a single-row query matches nothing).
-/

/-- Book is the domain entity `library.Book` with fields ID, Title, Author.
`created_at` exists only in the storage schema and is never surfaced. -/
structure Book where
  ID : Int
  Title : String
  Author : String
deriving Repr, DecidableEq

/-- GoError models the Go error values that flow through the program.
`errorf m` is `fmt.Errorf(m)` with no wrapping; `wrap m e` is
`fmt.Errorf(m + ": %w", e)`, which keeps the cause `e` inspectable via
`errors.Unwrap`.  The remaining constructors are the driver-level errors:
`sqlNoRows` is `sql.ErrNoRows`, `constraintViolation c` a CHECK/NOT NULL
violation on column `c`, and `connectionFailure` a failed round trip. -/
inductive GoError where
  | errorf (msg : String)
  | wrap (msg : String) (cause : GoError)
  | sqlNoRows
  | constraintViolation (column : String)
  | connectionFailure
deriving Repr, DecidableEq

/-- Unwrap models `errors.Unwrap`: a wrapped error exposes its cause. -/
def GoError.unwrap : GoError → Option GoError
  | .wrap _ cause => some cause
  | _ => none

/-- rootCause follows the unwrap chain to the innermost error. -/
def GoError.rootCause : GoError → GoError
  | .wrap _ cause => cause.rootCause
  | e => e

/-- isNotFoundError classifies an error as the spec's `NotFoundError`:
its root cause is the driver's `sql.ErrNoRows`. -/
def GoError.isNotFoundError (e : GoError) : Bool :=
  match e.rootCause with
  | .sqlNoRows => true
  | _ => false

/-- isValidationError classifies an error as the spec's `ValidationError`:
one of the two precondition errors produced by `AddBook`'s validation
(`fmt.Errorf("add book: title can\x27t be blank")` and the author variant). -/
def GoError.isValidationError : GoError → Bool
  | .errorf m =>
      m = "add book: title can\x27t be blank" || m = "add book: author can\x27t be blank"
  | _ => false

/-- Row is one row of the `books` table (the persisted columns the adapter
reads back; `created_at` is never selected, so it is omitted). -/
structure Row where
  id : Int
  title : String
  author : String
deriving Repr, DecidableEq

/-- DB is the state of the relational database behind the adapter: the rows of
the `books` table, the next value of the `BIGSERIAL` id sequence, and whether
the connection is healthy (driver calls fail when it is not). -/
structure DB where
  rows : List Row
  nextId : Int
  healthy : Bool
deriving Repr, DecidableEq

/-- emptyDB is a freshly migrated database: no rows, id sequence at 1. -/
def emptyDB : DB := ⟨[], 1, true⟩

/-- insertReturningId models
`INSERT INTO books (title, author) VALUES ($1, $2) RETURNING id;` executed via
`GetContext`: it fails on an unhealthy connection or when a value violates the
schema's `NOT NULL CHECK (length(..) > 0)` constraints; otherwise it appends a
row with the next sequence id and returns that id. -/
def insertReturningId (db : DB) (title author : String) : Except GoError (Int × DB) :=
  if db.healthy = false then .error .connectionFailure
  else if title = "" then .error (.constraintViolation "title")
  else if author = "" then .error (.constraintViolation "author")
  else .ok (db.nextId, ⟨db.rows ++ [⟨db.nextId, title, author⟩], db.nextId + 1, db.healthy⟩)

/-- execDeleteWhereId models `DELETE FROM books WHERE id = $1;` via
`ExecContext`: it fails only on an unhealthy connection; matching zero rows is
not an error. -/
def execDeleteWhereId (db : DB) (id : Int) : Except GoError DB :=
  if db.healthy = false then .error .connectionFailure
  else .ok ⟨db.rows.filter (fun r => r.id != id), db.nextId, db.healthy⟩

/-- queryRowWhereId models
`SELECT id, title, author FROM books WHERE id = $1;` via
`QueryRowxContext(...).Scan`: the first matching row, or `sql.ErrNoRows` when
none matches. -/
def queryRowWhereId (db : DB) (id : Int) : Except GoError Row :=
  if db.healthy = false then .error .connectionFailure
  else
    match db.rows.find? (fun r => r.id == id) with
    | some r => .ok r
    | none => .error .sqlNoRows

/-- insertSorted inserts a row into a list that is sorted by ascending id,
keeping it sorted. -/
def insertSorted (r : Row) : List Row → List Row
  | [] => [r]
  | x :: xs => if r.id ≤ x.id then r :: x :: xs else x :: insertSorted r xs

/-- sortById sorts rows by ascending id (insertion sort), modelling the result
order of `ORDER BY id ASC`. -/
def sortById : List Row → List Row
  | [] => []
  | x :: xs => insertSorted x (sortById xs)

/-- queryAllOrderById models
`SELECT id, title, author FROM books ORDER BY id ASC;` via `QueryxContext`:
all rows in ascending id order, an empty list when the table is empty. -/
def queryAllOrderById (db : DB) : Except GoError (List Row) :=
  if db.healthy = false then .error .connectionFailure
  else .ok (sortById db.rows)

/-- rowToBook is the `rows.Scan(&book.ID, &book.Title, &book.Author)` step:
a row scanned into a `library.Book`. -/
def rowToBook (r : Row) : Book := ⟨r.id, r.title, r.author⟩

namespace LibraryStore

/-- CreateBook embeds `LibraryStore.CreateBook` from
`src/04-persistence-end/library/store/store.go` lines 16-26: run the insert,
wrap a failure as `fmt.Errorf("create book: %w", err)`, otherwise return
`&library.Book{ID: id, Title: title, Author: author}`.  The resulting database
state is returned alongside, since the insert mutates the table. -/
def CreateBook (db : DB) (title author : String) : Except GoError Book × DB :=
  match insertReturningId db title author with
  | .error e => (.error (.wrap "create book" e), db)
  | .ok (id, db') => (.ok ⟨id, title, author⟩, db')

/-- DeleteBook embeds `LibraryStore.DeleteBook` (store.go lines 28-34): run the
delete, wrap a failure as `fmt.Errorf("delete book: %w", err)`, otherwise
return nil. -/
def DeleteBook (db : DB) (id : Int) : Except GoError DB :=
  match execDeleteWhereId db id with
  | .error e => .error (.wrap "delete book" e)
  | .ok db' => .ok db'

/-- GetBookByID embeds `LibraryStore.GetBookByID` (store.go lines 36-46): scan
the single matching row, wrapping any failure as
`fmt.Errorf("get book by id: %w", err)`. -/
def GetBookByID (db : DB) (id : Int) : Except GoError Book :=
  match queryRowWhereId db id with
  | .error e => .error (.wrap "get book by id" e)
  | .ok r => .ok (rowToBook r)

/-- GetBooks embeds `LibraryStore.GetBooks` (store.go lines 48-67): query all
rows ordered by id, scanning each into a book, starting from the non-nil empty
slice `[]*library.Book{}`; failures are wrapped as
`fmt.Errorf("get books: %w", err)`. -/
def GetBooks (db : DB) : Except GoError (List Book) :=
  match queryAllOrderById db with
  | .error e => .error (.wrap "get books" e)
  | .ok rs => .ok (rs.map rowToBook)

end LibraryStore

/-- Store is the service's capability interface (`service.Store` in the
lessons): one method per persistence operation, with the state of the backing
implementation threaded explicitly (`σ` is `DB` for the real adapter and
`MockStore` for the test double). -/
structure Store (σ : Type) where
  CreateBook : σ → String → String → Except GoError Book × σ
  GetBookByID : σ → Int → Except GoError Book × σ
  GetBooks : σ → Except GoError (List Book) × σ

/-- AddBookRequest is `service.AddBookRequest` with fields Title, Author. -/
structure AddBookRequest where
  Title : String
  Author : String
deriving Repr, DecidableEq

/-- AddBookResponse is `service.AddBookResponse`; the `Book` field holds the
persisted entity (`nil` never occurs on success, so it is not optional). -/
structure AddBookResponse where
  Book : Book
deriving Repr, DecidableEq

/-- GetBookRequest is `service.GetBookRequest` with its int64 ID. -/
structure GetBookRequest where
  ID : Int
deriving Repr, DecidableEq

/-- GetBookResponse is `service.GetBookResponse`. -/
structure GetBookResponse where
  Book : Book
deriving Repr, DecidableEq

/-- GetBooksResponse is `service.GetBooksResponse`. -/
structure GetBooksResponse where
  Books : List Book
deriving Repr, DecidableEq

namespace LibraryService

/-- AddBook embeds `LibraryService.AddBook`: the two validation checks added in
the testing-services lesson (`if req.Title == "" { return nil,
fmt.Errorf("add book: title can\x27t be blank") }` and the author variant),
then delegation to `ls.Store.CreateBook(ctx, req.Title, req.Author)`, wrapping
a store failure as `fmt.Errorf("add book: %w", err)` and otherwise returning
`&AddBookResponse{Book: book}`.  (The `log.Printf` call is an external side
effect and is not modelled.) -/
def AddBook {σ : Type} (store : Store σ) (s : σ) (req : AddBookRequest) :
    Except GoError AddBookResponse × σ :=
  if req.Title = "" then (.error (.errorf "add book: title can\x27t be blank"), s)
  else if req.Author = "" then (.error (.errorf "add book: author can\x27t be blank"), s)
  else
    match store.CreateBook s req.Title req.Author with
    | (.error e, s') => (.error (.wrap "add book" e), s')
    | (.ok book, s') => (.ok ⟨book⟩, s')

/-- GetBook embeds `LibraryService.GetBook`: delegate to
`ls.Store.GetBookByID(ctx, req.ID)`, wrapping a failure as
`fmt.Errorf("get book: %w", err)`. -/
def GetBook {σ : Type} (store : Store σ) (s : σ) (req : GetBookRequest) :
    Except GoError GetBookResponse × σ :=
  match store.GetBookByID s req.ID with
  | (.error e, s') => (.error (.wrap "get book" e), s')
  | (.ok book, s') => (.ok ⟨book⟩, s')

/-- GetBooks embeds `LibraryService.GetBooks`: delegate to
`ls.Store.GetBooks(ctx)`, wrapping a failure as
`fmt.Errorf("get books: %w", err)`. -/
def GetBooks {σ : Type} (store : Store σ) (s : σ) :
    Except GoError GetBooksResponse × σ :=
  match store.GetBooks s with
  | (.error e, s') => (.error (.wrap "get books" e), s')
  | (.ok books, s') => (.ok ⟨books⟩, s')

end LibraryService

/-- realStore packages the `LibraryStore` adapter as the service's `Store`
capability; reads leave the database unchanged. -/
def realStore : Store DB where
  CreateBook := fun db title author => LibraryStore.CreateBook db title author
  GetBookByID := fun db id => (LibraryStore.GetBookByID db id, db)
  GetBooks := fun db => (LibraryStore.GetBooks db, db)

/-- ErrMockNotImplemented is `var ErrMockNotImplemented =
fmt.Errorf("mock not implemented")` from the service test file. -/
def ErrMockNotImplemented : GoError := .errorf "mock not implemented"

/-- CreateBookArgs is the record of one `CreateBook` invocation kept by the
mock (the anonymous `struct{ Ctx; Title; Author }` of the call log, without the
context value, which carries no data here). -/
structure CreateBookArgs where
  Title : String
  Author : String
deriving Repr, DecidableEq

/-- MockStore is the test double from the service test file: an append-only
call log `CreateBookCalledWith` and an optional injected behavior
`CreateBookFn` (`nil` encoded as `none`). -/
structure MockStore where
  CreateBookCalledWith : List CreateBookArgs
  CreateBookFn : Option (String → String → Except GoError Book)

namespace MockStore

/-- CreateBook embeds `(*mockStore).CreateBook`: if `CreateBookFn` is nil,
fail with `ErrMockNotImplemented`; otherwise append the arguments to the call
log and invoke the injected behavior. -/
def CreateBook (ms : MockStore) (title author : String) :
    Except GoError Book × MockStore :=
  match ms.CreateBookFn with
  | none => (.error ErrMockNotImplemented, ms)
  | some f =>
      (f title author,
       { ms with CreateBookCalledWith := ms.CreateBookCalledWith ++ [⟨title, author⟩] })

/-- GetBookByID embeds the mock's `GetBookByID`, which is the unimplemented
placeholder `return nil, fmt.Errorf("TODO")`. -/
def GetBookByID (ms : MockStore) (_ : Int) : Except GoError Book × MockStore :=
  (.error (.errorf "TODO"), ms)

/-- GetBooks embeds the mock's `GetBooks`, also the `TODO` placeholder. -/
def GetBooks (ms : MockStore) : Except GoError (List Book) × MockStore :=
  (.error (.errorf "TODO"), ms)

end MockStore

/-- mockStoreAPI packages the mock as the service's `Store` capability, as the
tests do with `service.LibraryService{Store: store}`. -/
def mockStoreAPI : Store MockStore where
  CreateBook := fun ms title author => MockStore.CreateBook ms title author
  GetBookByID := fun ms id => MockStore.GetBookByID ms id
  GetBooks := fun ms => MockStore.GetBooks ms

/-- testCreateBookFn is the behavior injected by the tests:
`func(_ context.Context, title, author string) (*library.Book, error) {
  return &library.Book{ID: 123, Title: title, Author: author}, nil }`. -/
def testCreateBookFn (title author : String) : Except GoError Book :=
  .ok ⟨123, title, author⟩

/-- RowsAsc states that a list of rows is in strictly ascending id order. -/
def RowsAsc (l : List Row) : Prop := l.Chain' (fun a b => a.id < b.id)

/-- BooksAsc states that a list of books is in strictly ascending ID order. -/
def BooksAsc (l : List Book) : Prop := l.Chain' (fun a b => a.ID < b.ID)

instance : DecidablePred RowsAsc := fun l => by
  unfold RowsAsc; infer_instance

instance : DecidablePred BooksAsc := fun l => by
  unfold BooksAsc; infer_instance

/-- WF captures the integrity of a `books` table produced by the migration and
the adapter alone: rows are stored with strictly ascending ids (the table is
append-only through `BIGSERIAL`), every id is positive and below the next
sequence value, and the sequence value is positive. -/
def DB.WF (db : DB) : Prop :=
  RowsAsc db.rows ∧ (∀ r ∈ db.rows, 0 < r.id ∧ r.id < db.nextId) ∧ 0 < db.nextId

instance : DecidablePred DB.WF := fun db => by
  unfold DB.WF; infer_instance

/-- createMany embeds the `createManyBooks` test helper from
`src/04-persistence-end/library/store/store_test.go`: create each
`{Title: p[0], Author: p[1]}` in order through the adapter, collecting the
assigned ids, stopping at the first error.  (The registered cleanup callbacks
run after the test and are not part of the helper's own effect.) -/
def createMany (db : DB) : List (String × String) → Except GoError (List Int × DB)
  | [] => .ok ([], db)
  | p :: ps =>
      match LibraryStore.CreateBook db p.1 p.2 with
      | (.error e, _) => .error e
      | (.ok b, db') =>
          match createMany db' ps with
          | .error e => .error e
          | .ok (ids, db'') => .ok (b.ID :: ids, db'')

/-- rowsFrom n ps lists the rows an append-only insert of `ps` produces when
the id sequence stands at `n`. -/
def rowsFrom (n : Int) : List (String × String) → List Row
  | [] => []
  | p :: ps => ⟨n, p.1, p.2⟩ :: rowsFrom (n + 1) ps

/-- Helper for the sort model: inserting into a sorted list whose head is not
smaller keeps the list intact. -/
theorem insertSorted_cons_of_le (r x : Row) (xs : List Row) (h : r.id ≤ x.id) :
    insertSorted r (x :: xs) = r :: x :: xs := by
  simp [insertSorted, h]

/-- Sorting a list that is already in ascending id order is the identity. -/
theorem sortById_eq_self (l : List Row) (h : RowsAsc l) : sortById l = l := by
  induction l with
  | nil => rfl
  | cons a l ih =>
      have hl : RowsAsc l := List.Chain'.tail h
      rw [sortById, ih hl]
      cases l with
      | nil => rfl
      | cons b rest =>
          have hab : a.id < b.id := (List.chain'_cons.mp h).1
          exact insertSorted_cons_of_le a b rest hab.le

/-- Appending a row with a strictly larger id keeps rows ascending. -/
theorem RowsAsc.append_singleton {l : List Row} {row : Row} (h : RowsAsc l)
    (hlt : ∀ r ∈ l, r.id < row.id) : RowsAsc (l ++ [row]) := by
  rw [RowsAsc, List.chain'_append]
  refine ⟨h, List.chain'_singleton row, ?_⟩
  intro x hx y hy
  have hxl : x ∈ l := by
    obtain ⟨hne, rfl⟩ := List.mem_getLast?_eq_getLast hx
    exact List.getLast_mem hne
  have hyr : row = y := by simpa using hy
  subst hyr
  exact hlt x hxl

/-- A find? over rows none of which matches the predicate returns none. -/
theorem find?_eq_none_of_all {p : Row → Bool} {l : List Row}
    (h : ∀ r ∈ l, p r = false) : l.find? p = none := by
  rw [List.find?_eq_none]
  intro a ha
  simp [h a ha]

/-- CreateBook on a healthy database with non-empty fields succeeds, returning
the book with the next sequence id and appending exactly one row. -/
theorem CreateBook_ok (db : DB) (title author : String) (hh : db.healthy = true)
    (ht : title ≠ "") (ha : author ≠ "") :
    LibraryStore.CreateBook db title author =
      (.ok ⟨db.nextId, title, author⟩,
       ⟨db.rows ++ [⟨db.nextId, title, author⟩], db.nextId + 1, true⟩) := by
  simp [LibraryStore.CreateBook, insertReturningId, hh, ht, ha]

/-- Rows on a healthy database with an id matching nothing make
`queryRowWhereId` fail with `sql.ErrNoRows`. -/
theorem queryRowWhereId_none (db : DB) (id : Int) (hh : db.healthy = true)
    (hnone : ∀ r ∈ db.rows, r.id ≠ id) :
    queryRowWhereId db id = .error .sqlNoRows := by
  have : db.rows.find? (fun r => r.id == id) = none := by
    apply find?_eq_none_of_all
    intro r hr
    simpa using hnone r hr
  simp [queryRowWhereId, hh, this]

/-- CreateBook preserves the database integrity invariant. -/
theorem CreateBook_WF (db : DB) (title author : String) (hwf : db.WF)
    (hh : db.healthy = true) (ht : title ≠ "") (ha : author ≠ "") :
    (LibraryStore.CreateBook db title author).2.WF := by
  rw [CreateBook_ok db title author hh ht ha]
  obtain ⟨hasc, hbound, hpos⟩ := hwf
  refine ⟨?_, ?_, ?_⟩
  · exact hasc.append_singleton (fun r hr => (hbound r hr).2)
  · intro r hr
    rcases List.mem_append.mp hr with hr | hr
    · exact ⟨(hbound r hr).1, lt_trans (hbound r hr).2 (lt_add_one _)⟩
    · simp at hr
      subst hr
      exact ⟨hpos, lt_add_one _⟩
  · exact lt_trans hpos (lt_add_one _)

/-- C1: for every AddBook request in which Title or Author is the empty
string, AddBook returns a ValidationError and the mock store is left untouched
(in particular its `CreateBookCalledWith` log keeps exactly the entries it had,
so a log that was empty stays at zero entries): the store is reached only when
both fields are non-empty. -/
theorem addBook_blank_validation (ms : MockStore) (req : AddBookRequest)
    (hblank : req.Title = "" ∨ req.Author = "") :
    ∃ e, LibraryService.AddBook mockStoreAPI ms req = (.error e, ms) ∧
      e.isValidationError = true := by
  by_cases ht : req.Title = ""
  · refine ⟨.errorf "add book: title can\x27t be blank", ?_, ?_⟩
    · simp [LibraryService.AddBook, ht]
    · simp [GoError.isValidationError]
  · have ha : req.Author = "" := hblank.resolve_left ht
    refine ⟨.errorf "add book: author can\x27t be blank", ?_, ?_⟩
    · simp [LibraryService.AddBook, ht, ha]
    · simp [GoError.isValidationError]

/-- Witness for C1 at the test's "Blank Title" case, with the mock configured
exactly as in the test and an empty call log. -/
theorem addBook_blank_validation_witness :
    (("" : String) = "" ∨ ("Frank Herbert" : String) = "") ∧
    ∃ e, LibraryService.AddBook mockStoreAPI ⟨[], some testCreateBookFn⟩
          ⟨"", "Frank Herbert"⟩ =
        (.error e, (⟨[], some testCreateBookFn⟩ : MockStore)) ∧
      e.isValidationError = true :=
  ⟨Or.inl rfl,
   addBook_blank_validation ⟨[], some testCreateBookFn⟩ ⟨"", "Frank Herbert"⟩ (Or.inl rfl)⟩

/-- C5: a GetBookByID for an id matching no row fails with the NotFoundError
(the wrapped `sql.ErrNoRows`), and the service's GetBook propagates it wrapped
with its own operation context while the root cause stays `sql.ErrNoRows`. -/
theorem getBook_missing_id_not_found (db : DB) (id : Int) (hh : db.healthy = true)
    (hnone : ∀ r ∈ db.rows, r.id ≠ id) :
    LibraryStore.GetBookByID db id = .error (.wrap "get book by id" .sqlNoRows) ∧
    (GoError.wrap "get book by id" .sqlNoRows).isNotFoundError = true ∧
    LibraryService.GetBook realStore db ⟨id⟩ =
      (.error (.wrap "get book" (.wrap "get book by id" .sqlNoRows)), db) ∧
    (GoError.wrap "get book" (.wrap "get book by id" .sqlNoRows)).isNotFoundError = true := by
  have hq := queryRowWhereId_none db id hh hnone
  have hstore : LibraryStore.GetBookByID db id = .error (.wrap "get book by id" .sqlNoRows) := by
    simp [LibraryStore.GetBookByID, hq]
  refine ⟨hstore, rfl, ?_, rfl⟩
  simp [LibraryService.GetBook, realStore, hstore]

/-- Witness for C5 on the empty database at id 999. -/
theorem getBook_missing_id_not_found_witness :
    emptyDB.healthy = true ∧
    (LibraryStore.GetBookByID emptyDB 999 = .error (.wrap "get book by id" .sqlNoRows) ∧
     (GoError.wrap "get book by id" .sqlNoRows).isNotFoundError = true ∧
     LibraryService.GetBook realStore emptyDB ⟨999⟩ =
       (.error (.wrap "get book" (.wrap "get book by id" .sqlNoRows)), emptyDB) ∧
     (GoError.wrap "get book" (.wrap "get book by id" .sqlNoRows)).isNotFoundError = true) :=
  ⟨rfl, getBook_missing_id_not_found emptyDB 999 rfl (by simp [emptyDB])⟩

/-- C6: DeleteBook on a healthy connection succeeds for every id — including
ids matching no row — returning the table with any matching rows removed. -/
theorem deleteBook_nonexistent_ok (db : DB) (id : Int) (hh : db.healthy = true) :
    LibraryStore.DeleteBook db id =
      .ok ⟨db.rows.filter (fun r => r.id != id), db.nextId, db.healthy⟩ := by
  simp [LibraryStore.DeleteBook, execDeleteWhereId, hh]

/-- Witness for C6: deleting id 42, which no row matches, from the empty
database succeeds. -/
theorem deleteBook_nonexistent_ok_witness :
    emptyDB.healthy = true ∧
    LibraryStore.DeleteBook emptyDB 42 =
      .ok ⟨emptyDB.rows.filter (fun r => r.id != 42), emptyDB.nextId, emptyDB.healthy⟩ :=
  ⟨rfl, deleteBook_nonexistent_ok emptyDB 42 rfl⟩

/-- C7: a GetBooks against an empty table on a healthy connection returns the
concrete empty list, never an error and never an absent value. -/
theorem getBooks_empty_table (db : DB) (hh : db.healthy = true) (hr : db.rows = []) :
    LibraryStore.GetBooks db = .ok [] := by
  simp [LibraryStore.GetBooks, queryAllOrderById, hh, hr, sortById]

/-- Witness for C7 on the freshly migrated database. -/
theorem getBooks_empty_table_witness :
    emptyDB.healthy = true ∧ emptyDB.rows = [] ∧ LibraryStore.GetBooks emptyDB = .ok [] :=
  ⟨rfl, rfl, getBooks_empty_table emptyDB rfl rfl⟩

/-- C9: invoking the mock store's CreateBook while `CreateBookFn` is nil fails
with the distinguished `ErrMockNotImplemented` error and leaves the mock
unchanged — no default value is fabricated and nothing panics. -/
theorem mockStore_createBook_not_implemented (ms : MockStore) (title author : String)
    (h : ms.CreateBookFn = none) :
    MockStore.CreateBook ms title author = (.error ErrMockNotImplemented, ms) := by
  simp [MockStore.CreateBook, h]

/-- Witness for C9 on an unconfigured mock. -/
theorem mockStore_createBook_not_implemented_witness :
    (⟨[], none⟩ : MockStore).CreateBookFn = none ∧
    MockStore.CreateBook ⟨[], none⟩ "Dune" "Frank Herbert" =
      (.error ErrMockNotImplemented, (⟨[], none⟩ : MockStore)) :=
  ⟨rfl, mockStore_createBook_not_implemented ⟨[], none⟩ "Dune" "Frank Herbert" rfl⟩

/-- C10: the mock's call log is untouched by an invocation made while
`CreateBookFn` is nil, and grows by exactly the one appended argument record
when a behavior function is configured — so every log entry corresponds to a
configured invocation, in call order. -/
theorem mockStore_createBook_call_log (ms : MockStore) (title author : String) :
    (MockStore.CreateBook ms title author).2.CreateBookCalledWith =
      match ms.CreateBookFn with
      | none => ms.CreateBookCalledWith
      | some _ => ms.CreateBookCalledWith ++ [⟨title, author⟩] := by
  cases h : ms.CreateBookFn <;> simp [MockStore.CreateBook, h]

/-- C2: an AddBook with non-empty Title and Author against the real adapter on
a healthy, well-formed database succeeds with a Book whose ID is non-zero and
whose Title and Author equal the request's exactly. -/
theorem addBook_valid_returns_persisted_book (db : DB) (req : AddBookRequest)
    (hwf : db.WF) (hh : db.healthy = true)
    (ht : req.Title ≠ "") (ha : req.Author ≠ "") :
    ∃ resp db', LibraryService.AddBook realStore db req = (.ok resp, db') ∧
      resp.Book.ID ≠ 0 ∧ resp.Book.Title = req.Title ∧ resp.Book.Author = req.Author := by
  refine ⟨⟨⟨db.nextId, req.Title, req.Author⟩⟩,
    ⟨db.rows ++ [⟨db.nextId, req.Title, req.Author⟩], db.nextId + 1, true⟩, ?_, ?_, rfl, rfl⟩
  · simp [LibraryService.AddBook, ht, ha, realStore,
      CreateBook_ok db req.Title req.Author hh ht ha]
  · exact hwf.2.2.ne'

/-- Witness for C2: adding Dune by Frank Herbert to the empty database. -/
theorem addBook_valid_returns_persisted_book_witness :
    emptyDB.WF ∧
    ∃ resp db',
      LibraryService.AddBook realStore emptyDB ⟨"Dune", "Frank Herbert"⟩ = (.ok resp, db') ∧
      resp.Book.ID ≠ 0 ∧ resp.Book.Title = "Dune" ∧ resp.Book.Author = "Frank Herbert" :=
  ⟨by decide,
   addBook_valid_returns_persisted_book emptyDB ⟨"Dune", "Frank Herbert"⟩ (by decide) rfl
     (by decide) (by decide)⟩

/-- C3: round-trip law — after a successful AddBook, a GetBook with the
returned ID yields exactly the created book: identical ID, Title and Author,
with no transformation on the read path. -/
theorem addBook_getBook_roundtrip (db : DB) (req : AddBookRequest)
    (hwf : db.WF) (hh : db.healthy = true)
    (ht : req.Title ≠ "") (ha : req.Author ≠ "") :
    ∃ resp db', LibraryService.AddBook realStore db req = (.ok resp, db') ∧
      LibraryService.GetBook realStore db' ⟨resp.Book.ID⟩ = (.ok ⟨resp.Book⟩, db') := by
  refine ⟨⟨⟨db.nextId, req.Title, req.Author⟩⟩,
    ⟨db.rows ++ [⟨db.nextId, req.Title, req.Author⟩], db.nextId + 1, true⟩, ?_, ?_⟩
  · simp [LibraryService.AddBook, ht, ha, realStore,
      CreateBook_ok db req.Title req.Author hh ht ha]
  · have hold : db.rows.find? (fun r => r.id == db.nextId) = none := by
      apply find?_eq_none_of_all
      intro r hr
      have : r.id < db.nextId := (hwf.2.1 r hr).2
      simp [this.ne]
    simp [LibraryService.GetBook, realStore, LibraryStore.GetBookByID,
      queryRowWhereId, List.find?_append, hold, List.find?, rowToBook]

/-- Witness for C3: the Dune round trip on the empty database. -/
theorem addBook_getBook_roundtrip_witness :
    emptyDB.WF ∧
    ∃ resp db',
      LibraryService.AddBook realStore emptyDB ⟨"Dune", "Frank Herbert"⟩ = (.ok resp, db') ∧
      LibraryService.GetBook realStore db' ⟨resp.Book.ID⟩ = (.ok ⟨resp.Book⟩, db') :=
  ⟨by decide,
   addBook_getBook_roundtrip emptyDB ⟨"Dune", "Frank Herbert"⟩ (by decide) rfl
     (by decide) (by decide)⟩

/-- Every row produced by rowsFrom has an id at least the starting value. -/
theorem rowsFrom_id_ge (ps : List (String × String)) :
    ∀ (n : Int), ∀ r ∈ rowsFrom n ps, n ≤ r.id := by
  induction ps with
  | nil => intro n r hr; simp [rowsFrom] at hr
  | cons p ps ih =>
      intro n r hr
      rw [rowsFrom] at hr
      rcases List.mem_cons.mp hr with rfl | hr
      · exact le_refl _
      · have := ih (n + 1) r hr
        omega

/-- rowsFrom produces rows in strictly ascending id order. -/
theorem rowsFrom_asc (ps : List (String × String)) : ∀ (n : Int), RowsAsc (rowsFrom n ps) := by
  induction ps with
  | nil => intro n; simp [rowsFrom, RowsAsc]
  | cons p ps ih =>
      intro n
      rw [rowsFrom, RowsAsc, List.chain'_cons']
      refine ⟨?_, ih (n + 1)⟩
      intro y hy
      have hy' : y ∈ rowsFrom (n + 1) ps := List.mem_of_mem_head? hy
      have := rowsFrom_id_ge ps (n + 1) y hy'
      show n < y.id
      omega

/-- rowsFrom has one row per inserted pair. -/
theorem rowsFrom_length (ps : List (String × String)) :
    ∀ n, (rowsFrom n ps).length = ps.length := by
  induction ps with
  | nil => intro n; rfl
  | cons p ps ih => intro n; simp [rowsFrom, ih (n + 1)]

/-- Scanned books of rowsFrom carry the inserted titles, in order. -/
theorem rowsFrom_books_titles (ps : List (String × String)) :
    ∀ n, ((rowsFrom n ps).map rowToBook).map Book.Title = ps.map Prod.fst := by
  induction ps with
  | nil => intro n; rfl
  | cons p ps ih => intro n; simp [rowsFrom, rowToBook, ih (n + 1)]

/-- Scanned books of rowsFrom carry the inserted authors, in order. -/
theorem rowsFrom_books_authors (ps : List (String × String)) :
    ∀ n, ((rowsFrom n ps).map rowToBook).map Book.Author = ps.map Prod.snd := by
  induction ps with
  | nil => intro n; rfl
  | cons p ps ih => intro n; simp [rowsFrom, rowToBook, ih (n + 1)]

/-- Scanned books of rowsFrom carry the row ids. -/
theorem rowsFrom_books_ids (ps : List (String × String)) :
    ∀ n, ((rowsFrom n ps).map rowToBook).map Book.ID = (rowsFrom n ps).map Row.id := by
  induction ps with
  | nil => intro n; rfl
  | cons p ps ih => intro n; simp [rowsFrom, rowToBook, ih (n + 1)]

/-- createMany on a healthy database with non-empty fields succeeds, handing
out consecutive sequence ids and appending the corresponding rows in order. -/
theorem createMany_ok (ps : List (String × String)) :
    ∀ (db : DB), db.healthy = true → (∀ p ∈ ps, p.1 ≠ "" ∧ p.2 ≠ "") →
    createMany db ps = .ok ((rowsFrom db.nextId ps).map Row.id,
      ⟨db.rows ++ rowsFrom db.nextId ps, db.nextId + ps.length, true⟩) := by
  induction ps with
  | nil =>
      intro db hh _
      simp only [createMany, rowsFrom, List.map_nil, List.append_nil, List.length_nil,
        Nat.cast_zero, add_zero]
      rw [← hh]
  | cons p ps ih =>
      intro db hh hne
      have hp := hne p (List.mem_cons_self p ps)
      rw [createMany, CreateBook_ok db p.1 p.2 hh hp.1 hp.2]
      simp only [ih ⟨db.rows ++ [⟨db.nextId, p.1, p.2⟩], db.nextId + 1, true⟩ rfl
        (fun q hq => hne q (List.mem_cons_of_mem p hq))]
      simp [rowsFrom, List.append_assoc]
      omega

/-- C4: creating N books in a known order through the adapter (the
`createManyBooks` pattern, starting from an empty table) and then calling
GetBooks returns exactly N entities, in ascending ID order — the insertion
order — each entity's Title and Author matching its corresponding inserted
pair, and each ID matching the id assigned at creation. -/
theorem createMany_getBooks_ordered (ps : List (String × String))
    (hne : ∀ p ∈ ps, p.1 ≠ "" ∧ p.2 ≠ "") :
    ∃ ids db', createMany emptyDB ps = .ok (ids, db') ∧
      ∃ books, LibraryStore.GetBooks db' = .ok books ∧
        books.length = ps.length ∧ BooksAsc books ∧
        books.map Book.Title = ps.map Prod.fst ∧
        books.map Book.Author = ps.map Prod.snd ∧
        books.map Book.ID = ids := by
  refine ⟨(rowsFrom 1 ps).map Row.id, ⟨rowsFrom 1 ps, 1 + ps.length, true⟩, ?_, ?_⟩
  · have h := createMany_ok ps emptyDB rfl hne
    simpa [emptyDB] using h
  · refine ⟨(rowsFrom 1 ps).map rowToBook, ?_, ?_, ?_, ?_, ?_, ?_⟩
    · have hasc := rowsFrom_asc ps 1
      simp [LibraryStore.GetBooks, queryAllOrderById, sortById_eq_self _ hasc]
    · simp [rowsFrom_length]
    · rw [BooksAsc, List.chain'_map]
      have hasc := rowsFrom_asc ps 1
      simpa [rowToBook, RowsAsc] using hasc
    · exact rowsFrom_books_titles ps 1
    · exact rowsFrom_books_authors ps 1
    · exact rowsFrom_books_ids ps 1

/-- Witness for C4 on the three-book scenario of the store test. -/
theorem createMany_getBooks_ordered_witness :
    (∀ p ∈ [(("Norse Mythology", "Neil Gaiman") : String × String),
            ("The Divine Comedy", "Dante Alighieri"),
            ("2001: A Space Odyssey", "Arthur C. Clarke")], p.1 ≠ "" ∧ p.2 ≠ "") ∧
    ∃ ids db',
      createMany emptyDB
          [("Norse Mythology", "Neil Gaiman"),
           ("The Divine Comedy", "Dante Alighieri"),
           ("2001: A Space Odyssey", "Arthur C. Clarke")] = .ok (ids, db') ∧
      ∃ books, LibraryStore.GetBooks db' = .ok books ∧
        books.length = 3 ∧ BooksAsc books ∧
        books.map Book.Title = ["Norse Mythology", "The Divine Comedy", "2001: A Space Odyssey"] ∧
        books.map Book.Author = ["Neil Gaiman", "Dante Alighieri", "Arthur C. Clarke"] ∧
        books.map Book.ID = ids :=
  ⟨by decide,
   createMany_getBooks_ordered
     [("Norse Mythology", "Neil Gaiman"),
      ("The Divine Comedy", "Dante Alighieri"),
      ("2001: A Space Odyssey", "Arthur C. Clarke")] (by decide)⟩

/-- C8: when the layer below fails, every store operation and every service
operation returns an error wrapping the original cause with its short static
operation description ("create book", "delete book", "get book by id",
"get books", "add book", "get book"), and the cause stays programmatically
inspectable through unwrap; no operation swallows the error. -/
theorem error_wrapping_preserves_cause (db : DB) (hdb : db.healthy = false)
    (title author : String) (id : Int)
    (σ : Type) (st : Store σ) (s s₁ s₂ s₃ : σ) (e₁ e₂ e₃ : GoError)
    (req : AddBookRequest) (ht : req.Title ≠ "") (ha : req.Author ≠ "")
    (hc : st.CreateBook s req.Title req.Author = (.error e₁, s₁))
    (hg : st.GetBookByID s id = (.error e₂, s₂))
    (hl : st.GetBooks s = (.error e₃, s₃)) :
    LibraryStore.CreateBook db title author =
      (.error (.wrap "create book" .connectionFailure), db) ∧
    LibraryStore.DeleteBook db id = .error (.wrap "delete book" .connectionFailure) ∧
    LibraryStore.GetBookByID db id = .error (.wrap "get book by id" .connectionFailure) ∧
    LibraryStore.GetBooks db = .error (.wrap "get books" .connectionFailure) ∧
    LibraryService.AddBook st s req = (.error (.wrap "add book" e₁), s₁) ∧
    LibraryService.GetBook st s ⟨id⟩ = (.error (.wrap "get book" e₂), s₂) ∧
    LibraryService.GetBooks st s = (.error (.wrap "get books" e₃), s₃) ∧
    (GoError.wrap "create book" .connectionFailure).unwrap = some .connectionFailure ∧
    (GoError.wrap "add book" e₁).unwrap = some e₁ ∧
    (GoError.wrap "get book" e₂).unwrap = some e₂ ∧
    (GoError.wrap "get books" e₃).unwrap = some e₃ := by
  refine ⟨?_, ?_, ?_, ?_, ?_, ?_, ?_, rfl, rfl, rfl, rfl⟩
  · simp [LibraryStore.CreateBook, insertReturningId, hdb]
  · simp [LibraryStore.DeleteBook, execDeleteWhereId, hdb]
  · simp [LibraryStore.GetBookByID, queryRowWhereId, hdb]
  · simp [LibraryStore.GetBooks, queryAllOrderById, hdb]
  · simp [LibraryService.AddBook, ht, ha, hc]
  · simp [LibraryService.GetBook, hg]
  · simp [LibraryService.GetBooks, hl]

/-- Witness for C8: an unreachable database, and as the abstract store the
test double configured to fail with a connection failure (so its `CreateBook`
errors) while its other methods fail with the `TODO` placeholders. -/
theorem error_wrapping_preserves_cause_witness :
    (DB.mk [] 1 false).healthy = false ∧
    (LibraryStore.CreateBook ⟨[], 1, false⟩ "Dune" "Frank Herbert" =
      (.error (.wrap "create book" .connectionFailure), (⟨[], 1, false⟩ : DB)) ∧
    LibraryStore.DeleteBook ⟨[], 1, false⟩ 7 = .error (.wrap "delete book" .connectionFailure) ∧
    LibraryStore.GetBookByID ⟨[], 1, false⟩ 7 =
      .error (.wrap "get book by id" .connectionFailure) ∧
    LibraryStore.GetBooks ⟨[], 1, false⟩ = .error (.wrap "get books" .connectionFailure) ∧
    LibraryService.AddBook mockStoreAPI ⟨[], some fun _ _ => .error .connectionFailure⟩
        ⟨"Dune", "Frank Herbert"⟩ =
      (.error (.wrap "add book" .connectionFailure),
       (⟨[⟨"Dune", "Frank Herbert"⟩], some fun _ _ => .error .connectionFailure⟩ : MockStore)) ∧
    LibraryService.GetBook mockStoreAPI ⟨[], some fun _ _ => .error .connectionFailure⟩ ⟨7⟩ =
      (.error (.wrap "get book" (.errorf "TODO")),
       (⟨[], some fun _ _ => .error .connectionFailure⟩ : MockStore)) ∧
    LibraryService.GetBooks mockStoreAPI ⟨[], some fun _ _ => .error .connectionFailure⟩ =
      (.error (.wrap "get books" (.errorf "TODO")),
       (⟨[], some fun _ _ => .error .connectionFailure⟩ : MockStore)) ∧
    (GoError.wrap "create book" .connectionFailure).unwrap = some .connectionFailure ∧
    (GoError.wrap "add book" .connectionFailure).unwrap = some .connectionFailure ∧
    (GoError.wrap "get book" (.errorf "TODO")).unwrap = some (.errorf "TODO") ∧
    (GoError.wrap "get books" (.errorf "TODO")).unwrap = some (.errorf "TODO")) :=
  ⟨rfl,
   error_wrapping_preserves_cause ⟨[], 1, false⟩ rfl "Dune" "Frank Herbert" 7
     MockStore mockStoreAPI
     ⟨[], some fun _ _ => .error .connectionFailure⟩
     ⟨[⟨"Dune", "Frank Herbert"⟩], some fun _ _ => .error .connectionFailure⟩
     ⟨[], some fun _ _ => .error .connectionFailure⟩
     ⟨[], some fun _ _ => .error .connectionFailure⟩
     .connectionFailure (.errorf "TODO") (.errorf "TODO")
     ⟨"Dune", "Frank Herbert"⟩ (by decide) (by decide) rfl rfl rfl⟩
